import Mathlib

/-!
Shallow embedding of the time subsystem of the artichoke repository:

* `src/artichoke-backend/src/extn/core/time/args.rs` — the component
  argument normalizer (`TryConvertMut<&mut [Value], Args>`).
* `src/spinoso-time/src/time/tzrs/mod.rs` — the `Time` value type:
  `Hash`/`PartialEq`/`Ord` on the absolute instant, `Time::new`
  resolution through the timezone capability, and `From<ToA>`.

Machine integers are embedded as `Int`/`Nat` with explicit range checks
mirroring the Rust `try_from` conversions; fallible code returns
`Except`; the Rust panics (`expect`, `unreachable!`) are embedded as a
dedicated error constructor so that aborting and returning an error
stay distinguishable.
-/

set_option autoImplicit false

/-- An interpreter `Value` as seen by the argument normalizer: an
integer-convertible value, Ruby `nil`, or a value on which `to_int`
raises (e.g. a class object such as `StandardError`). -/
inductive RValue where
  | int (n : Int)
  | nil
  | err
  deriving DecidableEq, Repr

/-- Errors produced by the embedded normalizer.  `argumentCount` and
`range` carry the exact message bytes built by the Rust code;
`typeConv` is the generic type-conversion error raised by `to_int`;
`panicked` marks a Rust panic (`unreachable!`/`expect`), which aborts
rather than returns in the source. -/
inductive ConvError where
  | argumentCount (msg : String)
  | range (msg : String)
  | typeConv
  | panicked (msg : String)
  deriving DecidableEq, Repr

/-- The record produced by the normalizer (`struct Args` in
`args.rs`): `year: i32`, `month/day/hour/minute/second: u8`,
`nanoseconds: u32`. -/
structure Args where
  year : Int
  month : Nat
  day : Nat
  hour : Nat
  minute : Nat
  second : Nat
  nanoseconds : Nat
  deriving DecidableEq, Repr

/-- `impl Default for Args` in `args.rs`. -/
def Args.default : Args :=
  { year := 0, month := 1, day := 1, hour := 0, minute := 0, second := 0, nanoseconds := 0 }

instance {ε α : Type} [DecidableEq ε] [DecidableEq α] : DecidableEq (Except ε α) := fun a b =>
  match a, b with
  | .ok x, .ok y =>
    if h : x = y then .isTrue (by rw [h]) else .isFalse (by intro hc; cases hc; exact h rfl)
  | .error x, .error y =>
    if h : x = y then .isTrue (by rw [h]) else .isFalse (by intro hc; cases hc; exact h rfl)
  | .ok _, .error _ => .isFalse (by intro hc; cases hc)
  | .error _, .ok _ => .isFalse (by intro hc; cases hc)

/-- `to_int(self, arg)` followed by `try_convert_into::<Option<i64>>`:
succeeds with the integer value exactly when the value is
integer-convertible, otherwise raises a type-conversion error. -/
def to_int (v : RValue) : Except ConvError Int :=
  match v with
  | .int n => .ok n
  | .nil => .error .typeConv
  | .err => .error .typeConv

/-- `u8::try_from` on an `i64`: succeeds exactly on `0..=255`. -/
def u8TryFrom (m : Int) : Option Nat :=
  if 0 ≤ m ∧ m ≤ 255 then some m.toNat else none

/-- `u32::try_from` on an `i64`: succeeds exactly on `0..=4294967295`. -/
def u32TryFrom (m : Int) : Option Nat :=
  if 0 ≤ m ∧ m ≤ 4294967295 then some m.toNat else none

/-- One arm of the `match i` in the normalizer loop of
`try_convert_mut` (`args.rs` lines 57–146): position `i` is converted
with `to_int` and validated, producing the updated record or the exact
error of the source.  Index 7 is a NOOP; indices ≥ 8 are the
`unreachable!()` arm, embedded as a panic. -/
def argStep (i : Nat) (v : RValue) (r : Args) : Except ConvError Args :=
  match i with
  | 0 =>
    match to_int v with
    | .error e => .error e
    | .ok m =>
      if -2147483648 ≤ m ∧ m ≤ 2147483647 then .ok { r with year := m }
      else .error (.range "year out of range")
  | 1 =>
    match to_int v with
    | .error e => .error e
    | .ok m =>
      match u8TryFrom m with
      | some mo => if 1 ≤ mo ∧ mo ≤ 12 then .ok { r with month := mo }
                   else .error (.range "mon out of range")
      | none => .error (.range "mon out of range")
  | 2 =>
    match to_int v with
    | .error e => .error e
    | .ok m =>
      match u8TryFrom m with
      | some d => if 1 ≤ d ∧ d ≤ 31 then .ok { r with day := d }
                  else .error (.range "mday out of range")
      | none => .error (.range "mday out of range")
  | 3 =>
    match to_int v with
    | .error e => .error e
    | .ok m =>
      match u8TryFrom m with
      | some h => if h ≤ 59 then .ok { r with hour := h }
                  else .error (.range "hour out of range")
      | none => .error (.range "hour out of range")
  | 4 =>
    match to_int v with
    | .error e => .error e
    | .ok m =>
      match u8TryFrom m with
      | some mi => if mi ≤ 59 then .ok { r with minute := mi }
                   else .error (.range "min out of range")
      | none => .error (.range "min out of range")
  | 5 =>
    match to_int v with
    | .error e => .error e
    | .ok m =>
      match u8TryFrom m with
      | some s => if s ≤ 59 then .ok { r with second := s }
                  else .error (.range "sec out of range")
      | none => .error (.range "sec out of range")
  | 6 =>
    match to_int v with
    | .error e => .error e
    | .ok m =>
      match u32TryFrom m with
      | some micros => if micros ≤ 999999 then .ok { r with nanoseconds := micros * 1000 }
                       else .error (.range "subsecx out of range")
      | none => .error (.range "subsecx out of range")
  | 7 => .ok r
  | _ => .error (.panicked "internal error: entered unreachable code")

/-- The `for (i, &arg) in args.iter().enumerate()` loop of
`try_convert_mut`, starting at index `i` with accumulated record `r`:
each element is processed by `argStep` and the `?` operator
short-circuits on the first failure. -/
def argLoop (i : Nat) (r : Args) : List RValue → Except ConvError Args
  | [] => .ok r
  | v :: rest =>
    match argStep i v r with
    | .error e => .error e
    | .ok r2 => argLoop (i + 1) r2 rest

/-- `<[T]>::swap(i, j)`: exchange the elements at positions `i` and
`j` (both in bounds at every use site in `args.rs`). -/
def listSwap (l : List RValue) (i j : Nat) : List RValue :=
  match l[i]?, l[j]? with
  | some a, some b => (l.set i b).set j a
  | _, _ => l

/-- The whole of `try_convert_mut` for `&mut [Value] -> Args`
(`args.rs` lines 32–149).  The function receives a mutable slice, so
the embedding returns both the `Result` and the final contents of the
caller's slice: the 10-argument path swaps elements of the caller's
buffer in place before validating the first six. -/
def tryConvertMut (args : List RValue) : Except ConvError Args × List RValue :=
  if args.length = 0 ∨ args.length = 9 ∨ args.length = 11 then
    (.error (.argumentCount
      ("wrong number of arguments (given " ++ toString args.length ++ ", expected 1..8)")), args)
  else if args.length = 10 then
    let sw := listSwap (listSwap (listSwap args 0 5) 1 4) 2 3
    (argLoop 0 Args.default (sw.take 6), sw)
  else
    (argLoop 0 Args.default args, args)

/-!
Spec-side normalizer, for the refinement claim about §4.1 of the
spec.  It is written from the spec's words alone: an ordered field
table `{index -> validator}` consumed by a single loop (§9), each
present position converted and validated left to right,
short-circuiting on the first failure, with the spec's per-field
ranges, messages and defaults.
-/

/-- Modelled from the spec: position 0 (year) — "convert to a signed
64-bit integer, then require it fits a signed 32-bit integer, else
`year out of range`". -/
def specYear (v : RValue) (r : Args) : Except ConvError Args :=
  match to_int v with
  | .error e => .error e
  | .ok m =>
    if -2147483648 ≤ m ∧ m ≤ 2147483647 then .ok { r with year := m }
    else .error (.range "year out of range")

/-- Modelled from the spec: position 1 (month) — "require integer in
`1..=12`, else `mon out of range`". -/
def specMonth (v : RValue) (r : Args) : Except ConvError Args :=
  match to_int v with
  | .error e => .error e
  | .ok m =>
    if 1 ≤ m ∧ m ≤ 12 then .ok { r with month := m.toNat }
    else .error (.range "mon out of range")

/-- Modelled from the spec: position 2 (day) — "require integer in
`1..=31`, else `mday out of range`". -/
def specDay (v : RValue) (r : Args) : Except ConvError Args :=
  match to_int v with
  | .error e => .error e
  | .ok m =>
    if 1 ≤ m ∧ m ≤ 31 then .ok { r with day := m.toNat }
    else .error (.range "mday out of range")

/-- Modelled from the spec: position 3 (hour) — "require integer in
`0..=59`, else `hour out of range`". -/
def specHour (v : RValue) (r : Args) : Except ConvError Args :=
  match to_int v with
  | .error e => .error e
  | .ok m =>
    if 0 ≤ m ∧ m ≤ 59 then .ok { r with hour := m.toNat }
    else .error (.range "hour out of range")

/-- Modelled from the spec: position 4 (minute) — "require integer in
`0..=59`, else `min out of range`". -/
def specMinute (v : RValue) (r : Args) : Except ConvError Args :=
  match to_int v with
  | .error e => .error e
  | .ok m =>
    if 0 ≤ m ∧ m ≤ 59 then .ok { r with minute := m.toNat }
    else .error (.range "min out of range")

/-- Modelled from the spec: position 5 (second) — "require integer in
`0..=59`, else `sec out of range`". -/
def specSecond (v : RValue) (r : Args) : Except ConvError Args :=
  match to_int v with
  | .error e => .error e
  | .ok m =>
    if 0 ≤ m ∧ m ≤ 59 then .ok { r with second := m.toNat }
    else .error (.range "sec out of range")

/-- Modelled from the spec: position 6 (sub-second in microseconds) —
"require integer in `0..=999_999`, else `subsecx out of range`; store
as `nanoseconds = micros * 1000` (exact, no rounding)". -/
def specSubsec (v : RValue) (r : Args) : Except ConvError Args :=
  match to_int v with
  | .error e => .error e
  | .ok m =>
    if 0 ≤ m ∧ m ≤ 999999 then .ok { r with nanoseconds := m.toNat * 1000 }
    else .error (.range "subsecx out of range")

/-- Modelled from the spec: position 7 — "accepted and ignored
unconditionally, regardless of its type or value". -/
def specIgnored (_ : RValue) (r : Args) : Except ConvError Args := .ok r

/-- Modelled from the spec (§9): the ordered field table
`{index -> validator}`. -/
def specFieldAt : Nat → RValue → Args → Except ConvError Args
  | 0 => specYear
  | 1 => specMonth
  | 2 => specDay
  | 3 => specHour
  | 4 => specMinute
  | 5 => specSecond
  | 6 => specSubsec
  | _ => specIgnored

/-- Modelled from the spec (§9): the single loop consuming the field
table, validating present positions left to right and
short-circuiting on the first failure. -/
def specFrom (i : Nat) (r : Args) : List RValue → Except ConvError Args
  | [] => .ok r
  | v :: rest =>
    match specFieldAt i v r with
    | .error e => .error e
    | .ok r2 => specFrom (i + 1) r2 rest

/-- Modelled from the spec (§4.1): normalize a 1..=8-element list
starting from the defaults. -/
def specNormalize (vs : List RValue) : Except ConvError Args :=
  specFrom 0 Args.default vs

example :
    (tryConvertMut [.int 2022, .int 2, .int 3, .int 4, .int 5, .int 6, .int 7, .nil]).fst =
      .ok { year := 2022, month := 2, day := 3, hour := 4, minute := 5, second := 6,
            nanoseconds := 7000 } := by decide

example :
    (tryConvertMut []).fst =
      .error (.argumentCount "wrong number of arguments (given 0, expected 1..8)") := by decide

example :
    (tryConvertMut [.int 1, .int 2, .int 3, .int 4, .int 5, .int 2022, .nil, .nil, .nil, .nil]).fst =
      .ok { year := 2022, month := 5, day := 4, hour := 3, minute := 2, second := 1,
            nanoseconds := 0 } := by decide

example :
    (tryConvertMut [.int 2022, .int 1, .int 1, .int 0, .int 0, .int 0, .int 1000000]).fst =
      .error (.range "subsecx out of range") := by decide

/-!
The `Time` value type of `src/spinoso-time/src/time/tzrs/mod.rs`.
-/

/-- The `tz::datetime::DateTime` inner value of `Time`: wall-clock
fields plus the absolute instant (`unix_time` seconds since the epoch
and `nanoseconds`).  The external `tz-rs` crate keeps the wall-clock
fields consistent with `unix_time` under the zone; the embedding
carries them as plain data. -/
structure DateTime where
  year : Int
  month : Nat
  month_day : Nat
  hour : Nat
  minute : Nat
  second : Nat
  nanoseconds : Nat
  unix_time : Int
  deriving DecidableEq, Repr

/-- `DateTime::total_nanoseconds` of the external `tz-rs` crate: the
absolute instant as a single `i128` count of nanoseconds since the
epoch, `unix_time * 10^9 + nanoseconds`. -/
def total_nanoseconds (d : DateTime) : Int :=
  d.unix_time * 1000000000 + (d.nanoseconds : Int)

/-- The `Offset` enum (`offset.rs`, not under the excerpted sources).
Modelled from the spec (§4.4): four variants `Fixed`, `UTC`, `Local`,
`Named`.  The `Time` comparisons under scrutiny never inspect it. -/
inductive Offset where
  | utc
  | fixed (seconds : Int)
  | local
  | named (zone : String)
  deriving DecidableEq, Repr

/-- `struct Time { inner: DateTime, offset: Offset }`. -/
structure Time where
  inner : DateTime
  offset : Offset
  deriving DecidableEq, Repr

/-- `impl PartialEq for Time`: compares
`self.inner.total_nanoseconds()` with the other's. -/
def timeEq (t u : Time) : Bool :=
  total_nanoseconds t.inner == total_nanoseconds u.inner

/-- `impl Ord for Time`: `total_nanoseconds` comparison (the `i128`
ordering). -/
def timeCmp (t u : Time) : Ordering :=
  if total_nanoseconds t.inner < total_nanoseconds u.inner then .lt
  else if total_nanoseconds t.inner = total_nanoseconds u.inner then .eq
  else .gt

/-- `impl Hash for Time`: the only data fed to the hasher is
`state.write_i128(self.inner.total_nanoseconds())`; the embedding
returns that written value. -/
def timeHash (t : Time) : Int :=
  total_nanoseconds t.inner

/-- The wall-clock query handed to the timezone capability by
`Time::new` (the arguments of `DateTime::find`). -/
structure TimeComponents where
  year : Int
  month : Nat
  day : Nat
  hour : Nat
  minute : Nat
  second : Nat
  nanoseconds : Nat
  deriving DecidableEq, Repr

/-- The timezone capability (spec §6): given wall-clock components,
return the candidate absolute instants — zero, one, or many — in
ascending order.  This models `DateTime::find` of the external
`tz-rs` crate for the zone obtained from the offset. -/
def TzCapability : Type := TimeComponents → List DateTime

/-- `FoundDateTimeList::unique` of the external `tz-rs` crate: the
candidate, when there is exactly one; `None` when there are zero or
several. -/
def uniqueFound (l : List DateTime) : Option DateTime :=
  match l with
  | [d] => some d
  | _ => none

/-- `Time::new` (`mod.rs` lines 129–146): query the capability for
the components, then `unique().expect("Could not find a matching
DateTime for this timezone")`.  The `expect` panic is embedded as the
`panicked` error. -/
def timeNew (cap : TzCapability) (c : TimeComponents) (offset : Offset) :
    Except ConvError Time :=
  match uniqueFound (cap c) with
  | some dt => .ok { inner := dt, offset := offset }
  | none => .error (.panicked "Could not find a matching DateTime for this timezone")

/-- The `ToA` decomposition (`to_a.rs`, not under the excerpted
sources).  Modelled from the spec (§3): a lossy record
`{sec, min, hour, day, month, year, zone}` with no subsecond field. -/
structure ToA where
  sec : Nat
  min : Nat
  hour : Nat
  day : Nat
  month : Nat
  year : Int
  zone : Offset
  deriving DecidableEq, Repr

/-- Modelled from the spec: `Time#to_a` — produce the `ToA`
decomposition of a `Time` from its wall-clock fields and display
zone (`to_a.rs` is not under the excerpted sources). -/
def toArray (t : Time) : ToA :=
  { sec := t.inner.second, min := t.inner.minute, hour := t.inner.hour,
    day := t.inner.month_day, month := t.inner.month, year := t.inner.year,
    zone := t.offset }

/-- `impl From<ToA> for Time` (`mod.rs` lines 191–220):
`Time::new(to_a.year, to_a.month, to_a.day, to_a.hour, to_a.min,
to_a.sec, 0, Offset::from(to_a.zone))` — nanoseconds hard-coded to
zero. -/
def timeFromToA (cap : TzCapability) (a : ToA) : Except ConvError Time :=
  timeNew cap
    { year := a.year, month := a.month, day := a.day, hour := a.hour,
      minute := a.min, second := a.sec, nanoseconds := 0 }
    a.zone

/-!
Theorems.
-/

/-- C1: `Time` equality, ordering and hashing are determined
exclusively by the absolute instant (seconds and nanoseconds since
the epoch) and never by the `Offset`: two `Time` values denoting the
same physical instant under different offsets are equal, compare as
equal, and hash identically; and replacing either offset by any other
offset changes none of the three operations. -/
theorem time_eq_ord_hash_instant_only (d1 d2 : DateTime) (o1 o2 o3 o4 : Offset)
    (hs : d1.unix_time = d2.unix_time) (hn : d1.nanoseconds = d2.nanoseconds) :
    timeEq ⟨d1, o1⟩ ⟨d2, o2⟩ = true ∧
    timeCmp ⟨d1, o1⟩ ⟨d2, o2⟩ = Ordering.eq ∧
    timeHash ⟨d1, o1⟩ = timeHash ⟨d2, o2⟩ ∧
    timeEq ⟨d1, o1⟩ ⟨d2, o2⟩ = timeEq ⟨d1, o3⟩ ⟨d2, o4⟩ ∧
    timeCmp ⟨d1, o1⟩ ⟨d2, o2⟩ = timeCmp ⟨d1, o3⟩ ⟨d2, o4⟩ ∧
    timeHash ⟨d1, o1⟩ = timeHash ⟨d1, o3⟩ := by
  have htot : total_nanoseconds d1 = total_nanoseconds d2 := by
    unfold total_nanoseconds
    rw [hs, hn]
  refine ⟨?_, ?_, ?_, rfl, rfl, rfl⟩
  · unfold timeEq
    simp [htot]
  · unfold timeCmp
    simp [htot]
  · unfold timeHash
    exact htot

/-- Witness for C1: the Unix epoch plus 60 seconds under UTC and
under a fixed `+0100` offset compare equal, order equal, and hash
equal. -/
theorem time_eq_ord_hash_instant_only_witness :
    timeEq ⟨⟨1970, 1, 1, 0, 1, 0, 0, 60⟩, Offset.utc⟩
        ⟨⟨1970, 1, 1, 1, 1, 0, 0, 60⟩, Offset.fixed 3600⟩ = true ∧
    timeCmp ⟨⟨1970, 1, 1, 0, 1, 0, 0, 60⟩, Offset.utc⟩
        ⟨⟨1970, 1, 1, 1, 1, 0, 0, 60⟩, Offset.fixed 3600⟩ = Ordering.eq ∧
    timeHash ⟨⟨1970, 1, 1, 0, 1, 0, 0, 60⟩, Offset.utc⟩ =
      timeHash ⟨⟨1970, 1, 1, 1, 1, 0, 0, 60⟩, Offset.fixed 3600⟩ := by
  have h := time_eq_ord_hash_instant_only ⟨1970, 1, 1, 0, 1, 0, 0, 60⟩
    ⟨1970, 1, 1, 1, 1, 0, 0, 60⟩ Offset.utc (Offset.fixed 3600) Offset.local Offset.utc
    rfl rfl
  exact ⟨h.1, h.2.1, h.2.2.1⟩

/-- C2 (code bug): when the timezone capability returns two
candidates for a wall-clock query (an ambiguous time in a backward
DST fold) `Time::new` does not select the earliest candidate, and
when it returns zero candidates (a nonexistent time in a forward DST
gap) it does not fail with a recoverable zone-resolution error: in
both cases `unique()` yields no value and the `expect` panics, even
though the function's own documentation promises "This method will
always pick the earliest date". -/
theorem time_new_panics_on_fold_and_gap :
    timeNew
        (fun _ => [⟨2022, 4, 3, 2, 30, 0, 0, 1648981800⟩, ⟨2022, 4, 3, 2, 30, 0, 0, 1648985400⟩])
        ⟨2022, 4, 3, 2, 30, 0, 0⟩ (Offset.named "Pacific/Auckland") =
      .error (.panicked "Could not find a matching DateTime for this timezone") ∧
    timeNew (fun _ => []) ⟨2022, 9, 25, 2, 30, 0, 0⟩ (Offset.named "Pacific/Auckland") =
      .error (.panicked "Could not find a matching DateTime for this timezone") := by
  exact ⟨rfl, rfl⟩

/-- C3 (code bug): lengths 0, 9 and 11 fail with the exact
argument-count message, but a 12-element list is not rejected by the
length check (`0 | 9 | 11`) and instead reaches the `unreachable!()`
arm of the loop at index 8 — a panic, not an `ArgumentCountError`. -/
theorem arg_count_rejections_and_twelve_panics :
    (tryConvertMut []).fst =
      .error (.argumentCount "wrong number of arguments (given 0, expected 1..8)") ∧
    (tryConvertMut (List.replicate 9 (.int 1))).fst =
      .error (.argumentCount "wrong number of arguments (given 9, expected 1..8)") ∧
    (tryConvertMut (List.replicate 11 (.int 1))).fst =
      .error (.argumentCount "wrong number of arguments (given 11, expected 1..8)") ∧
    (tryConvertMut (List.replicate 12 (.int 1))).fst =
      .error (.panicked "internal error: entered unreachable code") := by
  refine ⟨by decide, by decide, by decide, by decide⟩

/-- C4 counterexample: a 10-element list whose sixth wall-clock field
is invalid fails validation, yet the caller's slice has already been
permuted in place by the three swaps — the failed call is not atomic
with respect to the argument list. -/
theorem ten_arg_failure_mutates_args :
    (tryConvertMut [.int 60, .int 2, .int 3, .int 4, .int 5, .int 2022,
        .nil, .nil, .nil, .nil]).fst = .error (.range "sec out of range") ∧
    (tryConvertMut [.int 60, .int 2, .int 3, .int 4, .int 5, .int 2022,
        .nil, .nil, .nil, .nil]).snd =
      [.int 2022, .int 5, .int 4, .int 3, .int 2, .int 60, .nil, .nil, .nil, .nil] ∧
    ([.int 2022, .int 5, .int 4, .int 3, .int 2, .int 60, .nil, .nil, .nil, .nil] :
        List RValue) ≠
      [.int 60, .int 2, .int 3, .int 4, .int 5, .int 2022, .nil, .nil, .nil, .nil] := by
  refine ⟨by decide, by decide, by decide⟩

/-- C4 amended: for every argument list whose length is not 10 the
call never changes the caller's slice (in particular every failing
call of that shape is atomic), and no partially built record is
observable in any failure since the result is either a full record or
an error; only the 10-element path mutates the slice in place. -/
theorem non_ten_args_left_unchanged (vs : List RValue) (h : vs.length ≠ 10) :
    (tryConvertMut vs).snd = vs := by
  unfold tryConvertMut
  by_cases h1 : vs.length = 0 ∨ vs.length = 9 ∨ vs.length = 11
  · rw [if_pos h1]
  · rw [if_neg h1, if_neg h]

/-- Witness for C4: a failing 1-element list is returned unchanged. -/
theorem non_ten_args_left_unchanged_witness :
    ([RValue.err] : List RValue).length ≠ 10 ∧ (tryConvertMut [RValue.err]).snd = [RValue.err] := by
  exact ⟨by decide, non_ten_args_left_unchanged [RValue.err] (by decide)⟩

/-- C5: a 10-element list is normalized exactly as the 6-element list
obtained by exchanging positions (0,5), (1,4) and (2,3) — so the
result is independent of positions 6 through 9, whatever their values
— and the concrete short-form list of the spec yields the expected
record even with error-raising sentinels in positions 6–9. -/
theorem ten_args_reorder (a b c d e f : RValue) (t : List RValue) (ht : t.length = 4) :
    (tryConvertMut ([a, b, c, d, e, f] ++ t)).fst = (tryConvertMut [f, e, d, c, b, a]).fst ∧
    (tryConvertMut [.int 1, .int 2, .int 3, .int 4, .int 5, .int 2022,
        .err, .err, .err, .err]).fst =
      .ok { year := 2022, month := 5, day := 4, hour := 3, minute := 2, second := 1,
            nanoseconds := 0 } := by
  refine ⟨?_, by decide⟩
  match t, ht with
  | [g, h, i, j], _ => rfl

/-- Witness for C5: the spec's short-form example with `nil` padding
equals its swapped 6-element normalization. -/
theorem ten_args_reorder_witness :
    (tryConvertMut [.int 1, .int 2, .int 3, .int 4, .int 5, .int 2022,
        .nil, .nil, .nil, .nil]).fst =
      (tryConvertMut [.int 2022, .int 5, .int 4, .int 3, .int 2, .int 1]).fst := by
  exact (ten_args_reorder (.int 1) (.int 2) (.int 3) (.int 4) (.int 5) (.int 2022)
    [.nil, .nil, .nil, .nil] (by decide)).1

/-- Position 0 of the loop agrees with the spec's year rule. -/
theorem argStep_zero_eq (v : RValue) (r : Args) : argStep 0 v r = specYear v r := rfl

/-- Position 1 of the loop (`u8::try_from` then the `1..=12` pattern)
agrees with the spec's month rule (`1..=12` over the integer). -/
theorem argStep_one_eq (v : RValue) (r : Args) : argStep 1 v r = specMonth v r := by
  unfold argStep specMonth u8TryFrom
  cases hv : to_int v with
  | error e => rfl
  | ok m =>
    dsimp only
    by_cases h1 : 0 ≤ m ∧ m ≤ 255
    · simp only [if_pos h1]
      by_cases h2 : 1 ≤ m ∧ m ≤ 12
      · rw [if_pos h2, if_pos (show 1 ≤ m.toNat ∧ m.toNat ≤ 12 by omega)]
      · rw [if_neg h2, if_neg (show ¬(1 ≤ m.toNat ∧ m.toNat ≤ 12) by omega)]
    · rw [if_neg h1, if_neg (show ¬(1 ≤ m ∧ m ≤ 12) by omega)]

/-- Position 2 of the loop agrees with the spec's day rule. -/
theorem argStep_two_eq (v : RValue) (r : Args) : argStep 2 v r = specDay v r := by
  unfold argStep specDay u8TryFrom
  cases hv : to_int v with
  | error e => rfl
  | ok m =>
    dsimp only
    by_cases h1 : 0 ≤ m ∧ m ≤ 255
    · simp only [if_pos h1]
      by_cases h2 : 1 ≤ m ∧ m ≤ 31
      · rw [if_pos h2, if_pos (show 1 ≤ m.toNat ∧ m.toNat ≤ 31 by omega)]
      · rw [if_neg h2, if_neg (show ¬(1 ≤ m.toNat ∧ m.toNat ≤ 31) by omega)]
    · rw [if_neg h1, if_neg (show ¬(1 ≤ m ∧ m ≤ 31) by omega)]

/-- Position 3 of the loop agrees with the spec's hour rule. -/
theorem argStep_three_eq (v : RValue) (r : Args) : argStep 3 v r = specHour v r := by
  unfold argStep specHour u8TryFrom
  cases hv : to_int v with
  | error e => rfl
  | ok m =>
    dsimp only
    by_cases h1 : 0 ≤ m ∧ m ≤ 255
    · simp only [if_pos h1]
      by_cases h2 : 0 ≤ m ∧ m ≤ 59
      · rw [if_pos h2, if_pos (show m.toNat ≤ 59 by omega)]
      · rw [if_neg h2, if_neg (show ¬ m.toNat ≤ 59 by omega)]
    · rw [if_neg h1, if_neg (show ¬(0 ≤ m ∧ m ≤ 59) by omega)]

/-- Position 4 of the loop agrees with the spec's minute rule. -/
theorem argStep_four_eq (v : RValue) (r : Args) : argStep 4 v r = specMinute v r := by
  unfold argStep specMinute u8TryFrom
  cases hv : to_int v with
  | error e => rfl
  | ok m =>
    dsimp only
    by_cases h1 : 0 ≤ m ∧ m ≤ 255
    · simp only [if_pos h1]
      by_cases h2 : 0 ≤ m ∧ m ≤ 59
      · rw [if_pos h2, if_pos (show m.toNat ≤ 59 by omega)]
      · rw [if_neg h2, if_neg (show ¬ m.toNat ≤ 59 by omega)]
    · rw [if_neg h1, if_neg (show ¬(0 ≤ m ∧ m ≤ 59) by omega)]

/-- Position 5 of the loop agrees with the spec's second rule. -/
theorem argStep_five_eq (v : RValue) (r : Args) : argStep 5 v r = specSecond v r := by
  unfold argStep specSecond u8TryFrom
  cases hv : to_int v with
  | error e => rfl
  | ok m =>
    dsimp only
    by_cases h1 : 0 ≤ m ∧ m ≤ 255
    · simp only [if_pos h1]
      by_cases h2 : 0 ≤ m ∧ m ≤ 59
      · rw [if_pos h2, if_pos (show m.toNat ≤ 59 by omega)]
      · rw [if_neg h2, if_neg (show ¬ m.toNat ≤ 59 by omega)]
    · rw [if_neg h1, if_neg (show ¬(0 ≤ m ∧ m ≤ 59) by omega)]

/-- Position 6 of the loop (`u32::try_from` then the `0..=999_999`
pattern, stored as `micros * 1000`) agrees with the spec's sub-second
rule. -/
theorem argStep_six_eq (v : RValue) (r : Args) : argStep 6 v r = specSubsec v r := by
  unfold argStep specSubsec u32TryFrom
  cases hv : to_int v with
  | error e => rfl
  | ok m =>
    dsimp only
    by_cases h1 : 0 ≤ m ∧ m ≤ 4294967295
    · simp only [if_pos h1]
      by_cases h2 : 0 ≤ m ∧ m ≤ 999999
      · rw [if_pos h2, if_pos (show m.toNat ≤ 999999 by omega)]
      · rw [if_neg h2, if_neg (show ¬ m.toNat ≤ 999999 by omega)]
    · rw [if_neg h1, if_neg (show ¬(0 ≤ m ∧ m ≤ 999999) by omega)]

/-- Position 7 of the loop (the NOOP) agrees with the spec's
"accepted and ignored unconditionally". -/
theorem argStep_seven_eq (v : RValue) (r : Args) : argStep 7 v r = specIgnored v r := rfl

/-- Every position up to 7 of the loop agrees with the spec's ordered
field table. -/
theorem argStep_eq_specFieldAt (i : Nat) (hi : i ≤ 7) (v : RValue) (r : Args) :
    argStep i v r = specFieldAt i v r := by
  interval_cases i
  · exact argStep_zero_eq v r
  · exact argStep_one_eq v r
  · exact argStep_two_eq v r
  · exact argStep_three_eq v r
  · exact argStep_four_eq v r
  · exact argStep_five_eq v r
  · exact argStep_six_eq v r
  · exact argStep_seven_eq v r

/-- The normalizer loop from any index agrees with the spec's single
loop over the field table, as long as it cannot run past index 7. -/
theorem argLoop_eq_specFrom (l : List RValue) :
    ∀ (i : Nat) (r : Args), i + l.length ≤ 8 → argLoop i r l = specFrom i r l := by
  induction l with
  | nil => intro i r _; rfl
  | cons v rest ih =>
    intro i r h
    have hi : i ≤ 7 := by simp only [List.length_cons] at h; omega
    simp only [argLoop, specFrom]
    rw [argStep_eq_specFieldAt i hi v r]
    cases hres : specFieldAt i v r with
    | error e => rfl
    | ok r2 =>
      exact ih (i + 1) r2 (by simp only [List.length_cons] at h; omega)

/-- C6: for every argument list of length 1 through 8 the normalizer
computes exactly the spec's left-to-right, short-circuiting,
per-field validation, with the spec's ranges (year in `i32`, month
`1..=12`, day `1..=31`, hour `0..=59`, minute `0..=59`, second
`0..=59`) and exact error messages. -/
theorem normalizer_refines_spec (vs : List RValue) (h1 : 1 ≤ vs.length) (h8 : vs.length ≤ 8) :
    (tryConvertMut vs).fst = specNormalize vs := by
  unfold tryConvertMut specNormalize
  rw [if_neg (show ¬(vs.length = 0 ∨ vs.length = 9 ∨ vs.length = 11) by omega),
    if_neg (show ¬ vs.length = 10 by omega)]
  exact argLoop_eq_specFrom vs 0 Args.default (by omega)

/-- The record field written by loop position `j` (positions 7 and
above write nothing), viewed in `Int` so that the year fits too. -/
def fieldAt (j : Nat) (r : Args) : Int :=
  match j with
  | 0 => r.year
  | 1 => r.month
  | 2 => r.day
  | 3 => r.hour
  | 4 => r.minute
  | 5 => r.second
  | 6 => r.nanoseconds
  | _ => 0

/-- A successful loop step at position `i` writes only field `i`. -/
theorem argStep_preserves (i : Nat) (v : RValue) (r r2 : Args)
    (h : argStep i v r = .ok r2) :
    ∀ j, j ≠ i → fieldAt j r2 = fieldAt j r := by
  intro j hj
  rcases i with _ | _ | _ | _ | _ | _ | _ | _ | i <;>
    unfold argStep u8TryFrom u32TryFrom at h <;>
    (try simp at h) <;>
    repeat' split at h
  all_goals (try simp at h)
  all_goals
    cases h with
    | refl => rcases j with _ | _ | _ | _ | _ | _ | _ | j <;> first | rfl | exact absurd rfl hj

/-- Witness for C6: a 2-element list normalizes identically under the
code and the spec validator. -/
theorem normalizer_refines_spec_witness :
    1 ≤ ([RValue.int 2022, RValue.int 2] : List RValue).length ∧
    ([RValue.int 2022, RValue.int 2] : List RValue).length ≤ 8 ∧
    (tryConvertMut [RValue.int 2022, RValue.int 2]).fst =
      specNormalize [RValue.int 2022, RValue.int 2] :=
  ⟨by decide, by decide,
    normalizer_refines_spec [RValue.int 2022, RValue.int 2] (by decide) (by decide)⟩

/-- A successful run of the loop from index `i` leaves every field
outside `[i, i + length)` untouched. -/
theorem argLoop_preserves (l : List RValue) :
    ∀ (i : Nat) (r r2 : Args), argLoop i r l = .ok r2 →
      ∀ j, j < i ∨ i + l.length ≤ j → fieldAt j r2 = fieldAt j r := by
  induction l with
  | nil =>
    intro i r r2 h j _
    simp only [argLoop] at h
    cases h with
    | refl => rfl
  | cons v rest ih =>
    intro i r r2 h j hj
    simp only [List.length_cons] at hj
    simp only [argLoop] at h
    cases hst : argStep i v r with
    | error e => rw [hst] at h; simp at h
    | ok rmid =>
      rw [hst] at h
      dsimp only at h
      have h1 := ih (i + 1) rmid r2 h j (by omega)
      have h2 := argStep_preserves i v r rmid hst j (by omega)
      rw [h1, h2]

/-- C8: every valid-length argument list (1 through 8 elements) that
normalizes successfully leaves each unsupplied field at its default:
month 1, day 1, hour 0, minute 0, second 0, nanoseconds 0 (the year
default is unobservable here since position 0 is always supplied). -/
theorem unsupplied_fields_default (vs : List RValue) (r : Args)
    (h1 : 1 ≤ vs.length) (h8 : vs.length ≤ 8)
    (hok : (tryConvertMut vs).fst = .ok r) :
    (vs.length ≤ 1 → r.month = 1) ∧ (vs.length ≤ 2 → r.day = 1) ∧
    (vs.length ≤ 3 → r.hour = 0) ∧ (vs.length ≤ 4 → r.minute = 0) ∧
    (vs.length ≤ 5 → r.second = 0) ∧ (vs.length ≤ 6 → r.nanoseconds = 0) := by
  unfold tryConvertMut at hok
  rw [if_neg (show ¬(vs.length = 0 ∨ vs.length = 9 ∨ vs.length = 11) by omega),
    if_neg (show ¬ vs.length = 10 by omega)] at hok
  have key : ∀ j, vs.length ≤ j → fieldAt j r = fieldAt j Args.default := by
    intro j hj
    exact argLoop_preserves vs 0 Args.default r hok j (Or.inr (by omega))
  refine ⟨?_, ?_, ?_, ?_, ?_, ?_⟩ <;> intro hlen
  · have h' : (r.month : Int) = ((1 : Nat) : Int) := key 1 (by omega)
    exact_mod_cast h'
  · have h' : (r.day : Int) = ((1 : Nat) : Int) := key 2 (by omega)
    exact_mod_cast h'
  · have h' : (r.hour : Int) = ((0 : Nat) : Int) := key 3 (by omega)
    exact_mod_cast h'
  · have h' : (r.minute : Int) = ((0 : Nat) : Int) := key 4 (by omega)
    exact_mod_cast h'
  · have h' : (r.second : Int) = ((0 : Nat) : Int) := key 5 (by omega)
    exact_mod_cast h'
  · have h' : (r.nanoseconds : Int) = ((0 : Nat) : Int) := key 6 (by omega)
    exact_mod_cast h'

/-- Witness for C8: a 1-element list takes every default. -/
theorem unsupplied_fields_default_witness :
    (tryConvertMut [RValue.int 2022]).fst =
      .ok { year := 2022, month := 1, day := 1, hour := 0, minute := 0, second := 0,
            nanoseconds := 0 } ∧
    ((1 : Nat) ≤ 1 →
      ({ year := 2022, month := 1, day := 1, hour := 0, minute := 0, second := 0,
         nanoseconds := 0 } : Args).month = 1) := by
  refine ⟨by decide, ?_⟩
  exact (unsupplied_fields_default [RValue.int 2022]
    { year := 2022, month := 1, day := 1, hour := 0, minute := 0, second := 0,
      nanoseconds := 0 } (by decide) (by decide) (by decide)).1

/-- A successful loop step keeps nanoseconds a multiple of 1000
bounded by 999999000: only position 6 writes the field, and it writes
`micros * 1000` with `micros ≤ 999999`. -/
theorem argStep_nanos_ok (i : Nat) (v : RValue) (r r2 : Args)
    (h : argStep i v r = .ok r2)
    (hr : r.nanoseconds % 1000 = 0 ∧ r.nanoseconds ≤ 999999000) :
    r2.nanoseconds % 1000 = 0 ∧ r2.nanoseconds ≤ 999999000 := by
  by_cases hi : i = 6
  · -- position 6: the field is rewritten with micros * 1000
    subst hi
    simp only [argStep, u32TryFrom] at h
    repeat' split at h
    all_goals (try simp at h)
    all_goals
      cases h with
      | refl => exact ⟨by simp, by simp; omega⟩
  · have h6 := argStep_preserves i v r r2 h 6 (by omega)
    have h6i : (r2.nanoseconds : Int) = (r.nanoseconds : Int) := h6
    have hsame : r2.nanoseconds = r.nanoseconds := by exact_mod_cast h6i
    rw [hsame]
    exact hr

/-- The loop preserves the nanoseconds granularity invariant. -/
theorem argLoop_nanos_ok (l : List RValue) :
    ∀ (i : Nat) (r r2 : Args), argLoop i r l = .ok r2 →
      r.nanoseconds % 1000 = 0 ∧ r.nanoseconds ≤ 999999000 →
      r2.nanoseconds % 1000 = 0 ∧ r2.nanoseconds ≤ 999999000 := by
  induction l with
  | nil =>
    intro i r r2 h hr
    simp only [argLoop] at h
    cases h with
    | refl => exact hr
  | cons v rest ih =>
    intro i r r2 h hr
    simp only [argLoop] at h
    cases hst : argStep i v r with
    | error e => rw [hst] at h; simp at h
    | ok rmid =>
      rw [hst] at h
      dsimp only at h
      exact ih (i + 1) rmid r2 h (argStep_nanos_ok i v r rmid hst hr)

/-- C10: every successful normalization yields a nanoseconds field
that is a multiple of 1000 and at most 999999000 — sub-microsecond
precision is unreachable through the argument-list protocol. -/
theorem nanoseconds_microsecond_granularity (vs : List RValue) (r : Args)
    (hok : (tryConvertMut vs).fst = .ok r) :
    r.nanoseconds % 1000 = 0 ∧ r.nanoseconds ≤ 999999000 := by
  unfold tryConvertMut at hok
  by_cases hc : vs.length = 0 ∨ vs.length = 9 ∨ vs.length = 11
  · rw [if_pos hc] at hok
    simp at hok
  · rw [if_neg hc] at hok
    by_cases h10 : vs.length = 10
    · rw [if_pos h10] at hok
      exact argLoop_nanos_ok _ 0 Args.default r hok ⟨rfl, Nat.zero_le _⟩
    · rw [if_neg h10] at hok
      exact argLoop_nanos_ok vs 0 Args.default r hok ⟨rfl, Nat.zero_le _⟩

/-- C7: when position 6 holds an integer `m`, normalization of an
otherwise valid 7- or 8-element list stores exactly `m * 1000`
nanoseconds if `0 ≤ m ≤ 999_999`, and otherwise — for every negative
`m` and every `m ≥ 1_000_000` — fails with exactly
`subsecx out of range`; there is no wraparound or rounding. -/
theorem subsec_micros_exact (y : Int) (mo d h mi s : Nat) (m : Int) (t : List RValue)
    (hy : -2147483648 ≤ y ∧ y ≤ 2147483647) (hmo : 1 ≤ mo ∧ mo ≤ 12)
    (hd : 1 ≤ d ∧ d ≤ 31) (hh : h ≤ 59) (hmi : mi ≤ 59) (hs : s ≤ 59)
    (ht : t.length ≤ 1) :
    (tryConvertMut ([.int y, .int mo, .int d, .int h, .int mi, .int s, .int m] ++ t)).fst =
      if 0 ≤ m ∧ m ≤ 999999 then
        .ok { year := y, month := mo, day := d, hour := h, minute := mi, second := s,
              nanoseconds := m.toNat * 1000 }
      else .error (.range "subsecx out of range") := by
  rcases t with _ | ⟨v, t2⟩
  · unfold tryConvertMut
    rw [if_neg (by simp), if_neg (by simp)]
    dsimp only
    rw [argLoop_eq_specFrom _ 0 Args.default (by simp)]
    simp only [specFrom, specFieldAt, specYear, specMonth, specDay, specHour, specMinute,
      specSecond, specSubsec, specIgnored, to_int]
    rw [if_pos hy]
    dsimp only
    rw [if_pos (show 1 ≤ (mo : Int) ∧ (mo : Int) ≤ 12 by omega)]
    dsimp only
    rw [if_pos (show 1 ≤ (d : Int) ∧ (d : Int) ≤ 31 by omega)]
    dsimp only
    rw [if_pos (show 0 ≤ (h : Int) ∧ (h : Int) ≤ 59 by omega)]
    dsimp only
    rw [if_pos (show 0 ≤ (mi : Int) ∧ (mi : Int) ≤ 59 by omega)]
    dsimp only
    rw [if_pos (show 0 ≤ (s : Int) ∧ (s : Int) ≤ 59 by omega)]
    dsimp only
    by_cases hm : 0 ≤ m ∧ m ≤ 999999
    · rw [if_pos hm, if_pos hm]
      simp [Int.toNat_natCast]
    · rw [if_neg hm, if_neg hm]
  · rcases t2 with _ | ⟨w, t3⟩
    · unfold tryConvertMut
      rw [if_neg (by simp), if_neg (by simp)]
      dsimp only
      rw [argLoop_eq_specFrom _ 0 Args.default (by simp)]
      simp only [specFrom, specFieldAt, specYear, specMonth, specDay, specHour, specMinute,
        specSecond, specSubsec, specIgnored, to_int]
      rw [if_pos hy]
      dsimp only
      rw [if_pos (show 1 ≤ (mo : Int) ∧ (mo : Int) ≤ 12 by omega)]
      dsimp only
      rw [if_pos (show 1 ≤ (d : Int) ∧ (d : Int) ≤ 31 by omega)]
      dsimp only
      rw [if_pos (show 0 ≤ (h : Int) ∧ (h : Int) ≤ 59 by omega)]
      dsimp only
      rw [if_pos (show 0 ≤ (mi : Int) ∧ (mi : Int) ≤ 59 by omega)]
      dsimp only
      rw [if_pos (show 0 ≤ (s : Int) ∧ (s : Int) ≤ 59 by omega)]
      dsimp only
      by_cases hm : 0 ≤ m ∧ m ≤ 999999
      · rw [if_pos hm, if_pos hm]
        simp [Int.toNat_natCast]
      · rw [if_neg hm, if_neg hm]
    · exfalso
      simp at ht
  -- length-2 tails are excluded by `ht`

/-- Witness for C7: microseconds 999999 stores 999999000 nanoseconds,
and the spec's boundary example holds. -/
theorem subsec_micros_exact_witness :
    (tryConvertMut [.int 2022, .int 1, .int 1, .int 0, .int 0, .int 0, .int 999999]).fst =
      .ok { year := 2022, month := 1, day := 1, hour := 0, minute := 0, second := 0,
            nanoseconds := 999999000 } := by
  have := subsec_micros_exact 2022 1 1 0 0 0 999999 [] (by decide) (by decide) (by decide)
    (by decide) (by decide) (by decide) (by decide)
  simpa using this

/-- C9: converting a `Time` to a `ToA` and reconstructing through
`From<ToA>` yields — whenever the wall-clock components resolve to a
unique instant whose local decomposition matches them — a `Time`
whose second, minute, hour, day, month and year equal the original's,
but whose nanoseconds is 0, whatever the original's nanoseconds. -/
theorem toa_round_trip_lossy (cap : TzCapability) (t : Time) (d : DateTime)
    (hcap : cap { year := t.inner.year, month := t.inner.month, day := t.inner.month_day,
                  hour := t.inner.hour, minute := t.inner.minute, second := t.inner.second,
                  nanoseconds := 0 } = [d])
    (hy : d.year = t.inner.year) (hmo : d.month = t.inner.month)
    (hd : d.month_day = t.inner.month_day) (hh : d.hour = t.inner.hour)
    (hmi : d.minute = t.inner.minute) (hs : d.second = t.inner.second)
    (hn : d.nanoseconds = 0) :
    ∃ u : Time, timeFromToA cap (toArray t) = .ok u ∧
      u.inner.second = t.inner.second ∧ u.inner.minute = t.inner.minute ∧
      u.inner.hour = t.inner.hour ∧ u.inner.month_day = t.inner.month_day ∧
      u.inner.month = t.inner.month ∧ u.inner.year = t.inner.year ∧
      u.inner.nanoseconds = 0 := by
  refine ⟨{ inner := d, offset := t.offset }, ?_, hs, hmi, hh, hd, hmo, hy, hn⟩
  unfold timeFromToA timeNew toArray
  dsimp only
  rw [hcap]
  rfl

/-- Witness for C9: a `Time` with 1000 nanoseconds round-trips
through `ToA` to a `Time` with the same wall-clock fields and zero
nanoseconds, under a capability resolving those components
uniquely. -/
theorem toa_round_trip_lossy_witness :
    (⟨⟨2022, 7, 8, 12, 34, 56, 1000, 1657283696⟩, Offset.utc⟩ : Time).inner.nanoseconds ≠ 0 ∧
    ∃ u : Time,
      timeFromToA
          (fun c => if c = ⟨2022, 7, 8, 12, 34, 56, 0⟩
            then [⟨2022, 7, 8, 12, 34, 56, 0, 1657283696⟩] else [])
          (toArray ⟨⟨2022, 7, 8, 12, 34, 56, 1000, 1657283696⟩, Offset.utc⟩) = .ok u ∧
      u.inner.second = 56 ∧ u.inner.minute = 34 ∧ u.inner.hour = 12 ∧
      u.inner.month_day = 8 ∧ u.inner.month = 7 ∧ u.inner.year = 2022 ∧
      u.inner.nanoseconds = 0 := by
  refine ⟨by decide, ?_⟩
  exact toa_round_trip_lossy
    (fun c => if c = ⟨2022, 7, 8, 12, 34, 56, 0⟩
      then [⟨2022, 7, 8, 12, 34, 56, 0, 1657283696⟩] else [])
    ⟨⟨2022, 7, 8, 12, 34, 56, 1000, 1657283696⟩, Offset.utc⟩
    ⟨2022, 7, 8, 12, 34, 56, 0, 1657283696⟩
    (by decide) rfl rfl rfl rfl rfl rfl rfl

/-- Witness for C10: the record produced from a microseconds argument
of 7 carries 7000 nanoseconds, a multiple of 1000 below the bound. -/
theorem nanoseconds_microsecond_granularity_witness :
    ({ year := 2022, month := 1, day := 1, hour := 0, minute := 0, second := 0,
       nanoseconds := 7000 } : Args).nanoseconds % 1000 = 0 ∧
    ({ year := 2022, month := 1, day := 1, hour := 0, minute := 0, second := 0,
       nanoseconds := 7000 } : Args).nanoseconds ≤ 999999000 :=
  nanoseconds_microsecond_granularity
    [.int 2022, .int 1, .int 1, .int 0, .int 0, .int 0, .int 7]
    { year := 2022, month := 1, day := 1, hour := 0, minute := 0, second := 0,
      nanoseconds := 7000 } (by decide)
